import Mathlib

/-!
Shallow embedding of the Flask service in src/app.py: four routes
(`/`, `/health`, `/api/echo`, `/api/info`) plus registered 404 and 500
handlers, with configuration read from the process environment.

Handlers are embedded as pure functions of the startup configuration, the
request-time process environment, the host identity, the wall clock, and the
request.  Framework concerns that are not part of src/ (request routing
dispatch, the JSON body parse, the default 405 response, the fault boundary
that maps an escaped exception to the registered 500 handler) are modelled
explicitly, following the behavior the specification attributes to them.
-/

/-- A JSON value, as handled by the framework's JSON layer.  Numbers are
embedded as integers; nothing here depends on numeric representation. -/
inductive Json where
  | null : Json
  | bool (b : Bool) : Json
  | num (n : Int) : Json
  | str (s : String) : Json
  | arr (xs : List Json) : Json
  | obj (kvs : List (String × Json)) : Json

/-- A process environment: a finite map from variable names to values. -/
abbrev Env := List (String × String)

/-- os.getenv(key, default): the value of `key` in the environment, or the
default when the variable is unset. -/
def getenv (e : Env) (key dflt : String) : String := (e.lookup key).getD dflt

/-- A naive (timezone-free) datetime, as produced by datetime.utcnow(). -/
structure DateTime where
  year : Nat
  month : Nat
  day : Nat
  hour : Nat
  minute : Nat
  second : Nat
  microsecond : Nat
deriving Repr, DecidableEq

/-- Field bounds of a well-formed datetime value. -/
abbrev validDT (d : DateTime) : Prop :=
  d.year < 10000 ∧ 1 ≤ d.month ∧ d.month ≤ 12 ∧ 1 ≤ d.day ∧ d.day ≤ 31 ∧
    d.hour < 24 ∧ d.minute < 60 ∧ d.second < 60 ∧ d.microsecond < 1000000

/-- The decimal digit character for `n % 10`. -/
def digitOf (n : Nat) : Char := Char.ofNat (48 + n % 10)

/-- `n` printed in decimal, zero-padded to exactly `w` digits. -/
def padNum : Nat → Nat → List Char
  | 0, _ => []
  | w + 1, n => padNum w (n / 10) ++ [digitOf n]

/-- datetime.isoformat() for a naive datetime: `YYYY-MM-DDTHH:MM:SS`, with
`.ffffff` appended exactly when the microsecond field is nonzero, and no
timezone offset. -/
def isoformat (d : DateTime) : String :=
  ⟨padNum 4 d.year ++ '-' :: padNum 2 d.month ++ '-' :: padNum 2 d.day ++
    'T' :: padNum 2 d.hour ++ ':' :: padNum 2 d.minute ++ ':' :: padNum 2 d.second ++
    (if d.microsecond = 0 then [] else '.' :: padNum 6 d.microsecond)⟩

/-- A datetime collapsed to a single natural number, ordered chronologically:
positional digits year, month, day, hour, minute, second in base 100-style
slots, then microseconds.  `dtKey a ≤ dtKey b` is the clock order. -/
def dtKey (d : DateTime) : Nat :=
  (((((d.year * 100 + d.month) * 100 + d.day) * 100 + d.hour) * 100 + d.minute) * 100 +
      d.second) * 1000000 + d.microsecond

/-- Lexicographic order on strings (reflexive closure of character-wise
lexicographic comparison of the underlying character lists). -/
def strLe (s t : String) : Prop := s.data = t.data ∨ List.Lex (· < ·) s.data t.data

/-- A decimal digit character. -/
def isDigitCh (c : Char) : Bool := 48 ≤ c.toNat && c.toNat ≤ 57

/-- The optional fractional-second tail of an ISO timestamp: empty, or a dot
followed by exactly six digits. -/
def microTail : List Char → Bool
  | [] => true
  | '.' :: us => us.length == 6 && us.all isDigitCh
  | _ => false

/-- Shape check for `YYYY-MM-DDTHH:MM:SS[.ffffff]`: 19 mandatory characters
with digits and separators in the right positions, then the optional
six-digit fraction, and nothing else (in particular no timezone offset). -/
def isoShapeB : List Char → Bool
  | y1 :: y2 :: y3 :: y4 :: '-' :: m1 :: m2 :: '-' :: d1 :: d2 :: 'T' ::
      h1 :: h2 :: ':' :: mi1 :: mi2 :: ':' :: s1 :: s2 :: rest =>
    [y1, y2, y3, y4, m1, m2, d1, d2, h1, h2, mi1, mi2, s1, s2].all isDigitCh && microTail rest
  | _ => false

/-- Classification of the body of a request as seen by the framework's JSON
layer.  Modelled from the spec: request.get_json() is framework code outside
src/; per the spec it yields None for a missing/absent body (or wrong content
type), the parsed value for a valid `application/json` body, and raises for
malformed JSON. -/
inductive BodyKind where
  | absent : BodyKind
  | valid (v : Json) : BodyKind
  | malformed : BodyKind

/-- An incoming HTTP request. -/
structure HttpRequest where
  method : String
  path : String
  headers : List (String × String)
  query : String
  body : BodyKind

/-- A response body: a JSON document, or a raw HTML page (the framework's
default error pages). -/
inductive RespBody where
  | json (j : Json) : RespBody
  | html (page : String) : RespBody

/-- An outgoing HTTP response. -/
structure HttpResponse where
  status : Nat
  contentType : String
  body : RespBody

/-- The module-level configuration globals of src/app.py (lines 15-16):
VERSION and BUILD_SHA, captured from the environment at import time. -/
structure ServiceConfig where
  version : String
  buildSha : String

/-- VERSION = os.getenv('APP_VERSION', '1.0.0');
BUILD_SHA = os.getenv('BUILD_SHA', 'dev')  (src/app.py lines 15-16),
evaluated once against the process environment at startup. -/
def mkServiceConfig (e : Env) : ServiceConfig :=
  { version := getenv e "APP_VERSION" "1.0.0", buildSha := getenv e "BUILD_SHA" "dev" }

/-- jsonify(...) with the default 200 status: a JSON body with the
`application/json` content type. -/
def jsonOk (j : Json) : HttpResponse :=
  { status := 200, contentType := "application/json", body := .json j }

/-- The home endpoint `/` (src/app.py lines 18-27).  The request itself is
not consulted. -/
def home (cfg : ServiceConfig) (now : DateTime) (_req : HttpRequest) : HttpResponse :=
  jsonOk (.obj [("service", .str "CI/CD Demo Application"),
                ("version", .str cfg.version),
                ("build_sha", .str cfg.buildSha),
                ("status", .str "running"),
                ("timestamp", .str (isoformat now))])

/-- The health endpoint `/health` (src/app.py lines 29-37), status 200
explicit in the source.  `host` is the request-time socket.gethostname()
result.  The request itself is not consulted. -/
def health (cfg : ServiceConfig) (host : String) (now : DateTime)
    (_req : HttpRequest) : HttpResponse :=
  jsonOk (.obj [("status", .str "healthy"),
                ("version", .str cfg.version),
                ("hostname", .str host),
                ("timestamp", .str (isoformat now))])

/-- request.get_json(): returns the parsed body (None when absent), raises on
malformed JSON.  Modelled from the spec: this framework call is not part of
src/. -/
def getJson : BodyKind → Except Unit (Option Json)
  | .absent => .ok none
  | .valid v => .ok (some v)
  | .malformed => .error ()

/-- jsonify's embedding of a possibly-None Python value. -/
def optToJson : Option Json → Json
  | none => .null
  | some v => v

/-- The echo endpoint `/api/echo`, POST only (src/app.py lines 39-47):
`data = request.get_json()` with no exception handling, then the parsed data
passed through verbatim in `received`.  A parse exception escapes the
handler. -/
def echo (cfg : ServiceConfig) (now : DateTime) (req : HttpRequest) :
    Except Unit HttpResponse :=
  match getJson req.body with
  | .error err => .error err
  | .ok data =>
    .ok (jsonOk (.obj [("received", optToJson data),
                       ("version", .str cfg.version),
                       ("timestamp", .str (isoformat now))]))

/-- The info endpoint `/api/info` (src/app.py lines 49-64).  `environment`
is read from the process environment at request time via os.getenv;
`python_version` is os.sys.version, given here as the parameter `pyver`.
The request itself is not consulted. -/
def info (cfg : ServiceConfig) (e : Env) (host pyver : String) (now : DateTime)
    (_req : HttpRequest) : HttpResponse :=
  jsonOk (.obj [("application", .obj
                  [("name", .str "CI/CD Demo Application"),
                   ("version", .str cfg.version),
                   ("build_sha", .str cfg.buildSha),
                   ("environment", .str (getenv e "ENVIRONMENT" "development"))]),
                ("system", .obj
                  [("hostname", .str host),
                   ("python_version", .str pyver)]),
                ("timestamp", .str (isoformat now))])

/-- The registered 404 handler (src/app.py lines 66-73). -/
def notFound (cfg : ServiceConfig) : HttpResponse :=
  { status := 404, contentType := "application/json",
    body := .json (.obj [("error", .str "Not Found"),
                         ("message", .str "The requested resource does not exist"),
                         ("version", .str cfg.version)]) }

/-- The registered 500 handler (src/app.py lines 75-82). -/
def internalError (cfg : ServiceConfig) : HttpResponse :=
  { status := 500, contentType := "application/json",
    body := .json (.obj [("error", .str "Internal Server Error"),
                         ("message", .str "An unexpected error occurred"),
                         ("version", .str cfg.version)]) }

/-- Modelled from the spec: the framework's default 405 Method Not Allowed
response, an HTML error page.  src/app.py registers handlers only for 404
and 500, so a method mismatch on a matched rule gets this framework
default. -/
def default405 : HttpResponse :=
  { status := 405, contentType := "text/html; charset=utf-8",
    body := .html "405 Method Not Allowed" }

/-- The URL map built from the @app.route declarations of src/app.py:
each registered path with its allowed methods (`GET` is the decorator
default; `/api/echo` declares `methods=['POST']`).  `none` means no rule
matches the path. -/
def routeMethods (path : String) : Option (List String) :=
  if path = "/" then some ["GET"]
  else if path = "/health" then some ["GET"]
  else if path = "/api/echo" then some ["POST"]
  else if path = "/api/info" then some ["GET"]
  else none

/-- Modelled from the spec: the framework's request dispatch (an external
collaborator per the spec).  An unmatched path goes to the registered 404
handler; a matched path with a method outside the rule's method list gets
the framework default 405 response; an exception escaping a handler is
mapped by the generic fault boundary to the registered 500 handler. -/
def dispatch (cfg : ServiceConfig) (e : Env) (host pyver : String) (now : DateTime)
    (req : HttpRequest) : HttpResponse :=
  match routeMethods req.path with
  | none => notFound cfg
  | some ms =>
    if req.method ∈ ms then
      if req.path = "/" then home cfg now req
      else if req.path = "/health" then health cfg host now req
      else if req.path = "/api/echo" then
        match echo cfg now req with
        | .ok r => r
        | .error _ => internalError cfg
      else info cfg e host pyver now req
    else default405

/-- Field lookup in a JSON object (first binding wins). -/
def Json.get? : Json → String → Option Json
  | .obj kvs, k => kvs.lookup k
  | _, _ => none

/-- A top-level field of a JSON response body. -/
def respField (r : HttpResponse) (k : String) : Option Json :=
  match r.body with
  | .json j => j.get? k
  | .html _ => none

/-- The top-level field names of a JSON-object response body, in order. -/
def respKeys (r : HttpResponse) : List String :=
  match r.body with
  | .json (.obj kvs) => kvs.map Prod.fst
  | _ => []

/-- The field names of the object stored under top-level field `k`. -/
def subKeys (r : HttpResponse) (k : String) : List String :=
  match respField r k with
  | some (.obj kvs) => kvs.map Prod.fst
  | _ => []

/-- A field of the object stored under top-level field `k1`. -/
def subField (r : HttpResponse) (k1 k2 : String) : Option Json :=
  match respField r k1 with
  | some j => j.get? k2
  | none => none

/-- The `version` fields of all six response classes, for a fixed environment
used both at startup and at request time: the four routes (for /api/info the
version is reported at application.version), the 404 body for an unmatched
path, and the 500 body produced by a malformed echo body. -/
def versionsOf (e : Env) (host pyver : String) (now : DateTime)
    (hs : List (String × String)) (q : String) (v : Json) : List (Option Json) :=
  [respField (dispatch (mkServiceConfig e) e host pyver now
      ⟨"GET", "/", hs, q, .valid v⟩) "version",
   respField (dispatch (mkServiceConfig e) e host pyver now
      ⟨"GET", "/health", hs, q, .valid v⟩) "version",
   respField (dispatch (mkServiceConfig e) e host pyver now
      ⟨"POST", "/api/echo", hs, q, .valid v⟩) "version",
   subField (dispatch (mkServiceConfig e) e host pyver now
      ⟨"GET", "/api/info", hs, q, .valid v⟩) "application" "version",
   respField (dispatch (mkServiceConfig e) e host pyver now
      ⟨"GET", "/nonexistent", hs, q, .valid v⟩) "version",
   respField (dispatch (mkServiceConfig e) e host pyver now
      ⟨"POST", "/api/echo", hs, q, .malformed⟩) "version"]

/-- A sample startup configuration: empty environment, so all defaults. -/
def cfg0 : ServiceConfig := mkServiceConfig []

/-- A sample clock value (the last microsecond of 2023, UTC). -/
def t0c : DateTime := ⟨2023, 12, 31, 23, 59, 59, 999999⟩

/-- A sample later clock value (midnight at the start of 2024, UTC). -/
def t1c : DateTime := ⟨2024, 1, 1, 0, 0, 0, 0⟩

lemma digit_split_lt {p q x y B : Nat} (hy : y < B)
    (h : p * B + x < q * B + y) : p < q ∨ (p = q ∧ x < y) := by
  rcases Nat.lt_trichotomy p q with hpq | hpq | hpq
  · exact Or.inl hpq
  · subst hpq
    exact Or.inr ⟨rfl, Nat.lt_of_add_lt_add_left h⟩
  · exfalso
    have h1 : q * B + y < (q + 1) * B := by
      rw [Nat.succ_mul]
      exact Nat.add_lt_add_left hy _
    have h2 : (q + 1) * B ≤ p * B := Nat.mul_le_mul_right _ hpq
    have h3 : q * B + y < p * B + x :=
      lt_of_lt_of_le (lt_of_lt_of_le h1 h2) (Nat.le_add_right _ _)
    exact absurd (h.trans h3) (lt_irrefl _)

lemma digit_split_eq {p q x y B : Nat} (hx : x < B) (hy : y < B)
    (h : p * B + x = q * B + y) : p = q ∧ x = y := by
  rcases Nat.lt_trichotomy p q with hpq | hpq | hpq
  · exfalso
    have h1 : p * B + x < (p + 1) * B := by
      rw [Nat.succ_mul]
      exact Nat.add_lt_add_left hx _
    have h2 : (p + 1) * B ≤ q * B := Nat.mul_le_mul_right _ hpq
    have h3 : p * B + x < q * B + y :=
      lt_of_lt_of_le (lt_of_lt_of_le h1 h2) (Nat.le_add_right _ _)
    omega
  · subst hpq
    exact ⟨rfl, Nat.add_left_cancel h⟩
  · exfalso
    have h1 : q * B + y < (q + 1) * B := by
      rw [Nat.succ_mul]
      exact Nat.add_lt_add_left hy _
    have h2 : (q + 1) * B ≤ p * B := Nat.mul_le_mul_right _ hpq
    have h3 : q * B + y < p * B + x :=
      lt_of_lt_of_le (lt_of_lt_of_le h1 h2) (Nat.le_add_right _ _)
    omega

lemma padNum_length (w n : Nat) : (padNum w n).length = w := by
  induction w generalizing n with
  | zero => rfl
  | succ w ih => simp [padNum, ih]

lemma digitOf_lt {a b : Nat} (h : a % 10 < b % 10) : digitOf a < digitOf b := by
  have key : ∀ x : Fin 10, ∀ y : Fin 10, x.val < y.val →
      Char.ofNat (48 + x.val) < Char.ofNat (48 + y.val) := by decide
  exact key ⟨a % 10, Nat.mod_lt _ (by omega)⟩ ⟨b % 10, Nat.mod_lt _ (by omega)⟩ h

lemma lex_append_same (p : List Char) {x y : List Char} (h : List.Lex (· < ·) x y) :
    List.Lex (· < ·) (p ++ x) (p ++ y) := by
  induction p with
  | nil => exact h
  | cons c cs ih => exact List.Lex.cons ih

lemma lex_append_congr {a b : List Char} (h : List.Lex (· < ·) a b) :
    a.length = b.length → ∀ x y, List.Lex (· < ·) (a ++ x) (b ++ y) := by
  induction h with
  | nil => intro hlen x y; simp at hlen
  | rel hr => intro hlen x y; exact List.Lex.rel hr
  | cons h ih => intro hlen x y; exact List.Lex.cons (ih (by simpa using hlen) x y)

lemma padNum_lt {w n m : Nat} (hn : n < 10 ^ w) (hm : m < 10 ^ w) (h : n < m) :
    List.Lex (· < ·) (padNum w n) (padNum w m) := by
  induction w generalizing n m with
  | zero => simp [pow_zero] at hn hm; omega
  | succ w ih =>
    have hn10 : n / 10 < 10 ^ w := by
      rw [Nat.div_lt_iff_lt_mul (by norm_num)]
      calc n < 10 ^ (w + 1) := hn
        _ = 10 ^ w * 10 := by rw [pow_succ]
    have hm10 : m / 10 < 10 ^ w := by
      rw [Nat.div_lt_iff_lt_mul (by norm_num)]
      calc m < 10 ^ (w + 1) := hm
        _ = 10 ^ w * 10 := by rw [pow_succ]
    show List.Lex (· < ·) (padNum w (n / 10) ++ [digitOf n]) (padNum w (m / 10) ++ [digitOf m])
    rcases Nat.lt_trichotomy (n / 10) (m / 10) with hq | hq | hq
    · exact lex_append_congr (ih hn10 hm10 hq) (by simp [padNum_length]) _ _
    · rw [hq]
      exact lex_append_same _ (List.Lex.rel (digitOf_lt (by omega)))
    · omega

lemma dtKey_eq_fields {a b : DateTime} (ha : validDT a) (hb : validDT b)
    (h : dtKey a = dtKey b) : a = b := by
  obtain ⟨y1, mo1, d1, h1, mi1, s1, u1⟩ := a
  obtain ⟨y2, mo2, d2, h2, mi2, s2, u2⟩ := b
  simp only [validDT, dtKey] at ha hb h
  simp only [DateTime.mk.injEq]
  omega

theorem isoformat_mono {a b : DateTime} (ha : validDT a) (hb : validDT b)
    (h : dtKey a ≤ dtKey b) : strLe (isoformat a) (isoformat b) := by
  rcases Nat.eq_or_lt_of_le h with heq | hlt
  · left
    rw [dtKey_eq_fields ha hb heq]
  · right
    obtain ⟨hy1, hmo1, hmo1b, hd1, hd1b, hh1, hmi1, hs1, hu1⟩ := ha
    obtain ⟨hy2, hmo2, hmo2b, hd2, hd2b, hh2, hmi2, hs2, hu2⟩ := hb
    simp only [dtKey] at hlt
    show List.Lex (· < ·)
      (padNum 4 a.year ++ '-' :: (padNum 2 a.month ++ '-' :: (padNum 2 a.day ++
        'T' :: (padNum 2 a.hour ++ ':' :: (padNum 2 a.minute ++ ':' :: (padNum 2 a.second ++
        (if a.microsecond = 0 then [] else '.' :: padNum 6 a.microsecond)))))))
      (padNum 4 b.year ++ '-' :: (padNum 2 b.month ++ '-' :: (padNum 2 b.day ++
        'T' :: (padNum 2 b.hour ++ ':' :: (padNum 2 b.minute ++ ':' :: (padNum 2 b.second ++
        (if b.microsecond = 0 then [] else '.' :: padNum 6 b.microsecond)))))))
    rcases digit_split_lt hu2 hlt with h6 | ⟨e6, hu⟩
    · rcases digit_split_lt (show b.second < 100 by omega) h6 with h5 | ⟨e5, hs⟩
      · rcases digit_split_lt (show b.minute < 100 by omega) h5 with h4 | ⟨e4, hmi⟩
        · rcases digit_split_lt (show b.hour < 100 by omega) h4 with h3 | ⟨e3, hh⟩
          · rcases digit_split_lt (show b.day < 100 by omega) h3 with h2' | ⟨e2, hd⟩
            · rcases digit_split_lt (show b.month < 100 by omega) h2' with h1' | ⟨e1, hmo⟩
              · exact lex_append_congr
                  (padNum_lt (show a.year < 10 ^ 4 by omega)
                    (show b.year < 10 ^ 4 by omega) h1')
                  (by simp [padNum_length]) _ _
              · rw [e1]
                exact lex_append_same _ <| List.Lex.cons <|
                  lex_append_congr
                    (padNum_lt (show a.month < 10 ^ 2 by omega)
                      (show b.month < 10 ^ 2 by omega) hmo)
                    (by simp [padNum_length]) _ _
            · obtain ⟨e1, emo⟩ := digit_split_eq (show a.month < 100 by omega)
                (show b.month < 100 by omega) e2
              rw [e1, emo]
              exact lex_append_same _ <| List.Lex.cons <| lex_append_same _ <| List.Lex.cons <|
                lex_append_congr
                  (padNum_lt (show a.day < 10 ^ 2 by omega)
                    (show b.day < 10 ^ 2 by omega) hd)
                  (by simp [padNum_length]) _ _
          · obtain ⟨e2, ed⟩ := digit_split_eq (show a.day < 100 by omega)
              (show b.day < 100 by omega) e3
            obtain ⟨e1, emo⟩ := digit_split_eq (show a.month < 100 by omega)
              (show b.month < 100 by omega) e2
            rw [e1, emo, ed]
            exact lex_append_same _ <| List.Lex.cons <| lex_append_same _ <| List.Lex.cons <|
              lex_append_same _ <| List.Lex.cons <|
                lex_append_congr
                  (padNum_lt (show a.hour < 10 ^ 2 by omega)
                    (show b.hour < 10 ^ 2 by omega) hh)
                  (by simp [padNum_length]) _ _
        · obtain ⟨e3, eh⟩ := digit_split_eq (show a.hour < 100 by omega)
            (show b.hour < 100 by omega) e4
          obtain ⟨e2, ed⟩ := digit_split_eq (show a.day < 100 by omega)
            (show b.day < 100 by omega) e3
          obtain ⟨e1, emo⟩ := digit_split_eq (show a.month < 100 by omega)
            (show b.month < 100 by omega) e2
          rw [e1, emo, ed, eh]
          exact lex_append_same _ <| List.Lex.cons <| lex_append_same _ <| List.Lex.cons <|
            lex_append_same _ <| List.Lex.cons <| lex_append_same _ <| List.Lex.cons <|
              lex_append_congr
                (padNum_lt (show a.minute < 10 ^ 2 by omega)
                  (show b.minute < 10 ^ 2 by omega) hmi)
                (by simp [padNum_length]) _ _
      · obtain ⟨e4, emi⟩ := digit_split_eq (show a.minute < 100 by omega)
          (show b.minute < 100 by omega) e5
        obtain ⟨e3, eh⟩ := digit_split_eq (show a.hour < 100 by omega)
          (show b.hour < 100 by omega) e4
        obtain ⟨e2, ed⟩ := digit_split_eq (show a.day < 100 by omega)
          (show b.day < 100 by omega) e3
        obtain ⟨e1, emo⟩ := digit_split_eq (show a.month < 100 by omega)
          (show b.month < 100 by omega) e2
        rw [e1, emo, ed, eh, emi]
        exact lex_append_same _ <| List.Lex.cons <| lex_append_same _ <| List.Lex.cons <|
          lex_append_same _ <| List.Lex.cons <| lex_append_same _ <| List.Lex.cons <|
            lex_append_same _ <| List.Lex.cons <|
              lex_append_congr
                (padNum_lt (show a.second < 10 ^ 2 by omega)
                  (show b.second < 10 ^ 2 by omega) hs)
                (by simp [padNum_length]) _ _
    · obtain ⟨e5, es⟩ := digit_split_eq (show a.second < 100 by omega)
        (show b.second < 100 by omega) e6
      obtain ⟨e4, emi⟩ := digit_split_eq (show a.minute < 100 by omega)
        (show b.minute < 100 by omega) e5
      obtain ⟨e3, eh⟩ := digit_split_eq (show a.hour < 100 by omega)
        (show b.hour < 100 by omega) e4
      obtain ⟨e2, ed⟩ := digit_split_eq (show a.day < 100 by omega)
        (show b.day < 100 by omega) e3
      obtain ⟨e1, emo⟩ := digit_split_eq (show a.month < 100 by omega)
        (show b.month < 100 by omega) e2
      rw [e1, emo, ed, eh, emi, es]
      have htail : List.Lex (· < ·)
          (if a.microsecond = 0 then [] else '.' :: padNum 6 a.microsecond)
          (if b.microsecond = 0 then [] else '.' :: padNum 6 b.microsecond) := by
        rcases Nat.eq_zero_or_pos a.microsecond with hz | hz
        · rw [hz, if_pos rfl, if_neg (by omega)]
          exact List.Lex.nil
        · rw [if_neg (by omega), if_neg (by omega)]
          exact List.Lex.cons
            (padNum_lt (show a.microsecond < 10 ^ 6 by omega)
              (show b.microsecond < 10 ^ 6 by omega) hu)
      exact lex_append_same _ <| List.Lex.cons <| lex_append_same _ <| List.Lex.cons <|
        lex_append_same _ <| List.Lex.cons <| lex_append_same _ <| List.Lex.cons <|
          lex_append_same _ <| List.Lex.cons <| lex_append_same _ htail

lemma isDigitCh_digitOf (n : Nat) : isDigitCh (digitOf n) = true := by
  have key : ∀ k : Fin 10, isDigitCh (Char.ofNat (48 + k.val)) = true := by decide
  exact key ⟨n % 10, Nat.mod_lt _ (by omega)⟩

lemma padNum_two (n : Nat) : padNum 2 n = [digitOf (n / 10), digitOf n] := rfl

lemma padNum_four (n : Nat) :
    padNum 4 n = [digitOf (n / 10 / 10 / 10), digitOf (n / 10 / 10),
      digitOf (n / 10), digitOf n] := rfl

lemma padNum_six (n : Nat) :
    padNum 6 n = [digitOf (n / 10 / 10 / 10 / 10 / 10), digitOf (n / 10 / 10 / 10 / 10),
      digitOf (n / 10 / 10 / 10), digitOf (n / 10 / 10), digitOf (n / 10), digitOf n] := rfl

theorem isoformat_shape (d : DateTime) : isoShapeB (isoformat d).data = true := by
  show isoShapeB
    (padNum 4 d.year ++ '-' :: (padNum 2 d.month ++ '-' :: (padNum 2 d.day ++
      'T' :: (padNum 2 d.hour ++ ':' :: (padNum 2 d.minute ++ ':' :: (padNum 2 d.second ++
      (if d.microsecond = 0 then [] else '.' :: padNum 6 d.microsecond))))))) = true
  by_cases hz : d.microsecond = 0
  · simp [hz, padNum_two, padNum_four, isoShapeB, isDigitCh_digitOf, microTail]
  · simp [hz, padNum_two, padNum_four, padNum_six, isoShapeB, isDigitCh_digitOf, microTail]

lemma dispatch_cases (cfg : ServiceConfig) (e : Env) (host pyver : String) (now : DateTime)
    (m p : String) (hs : List (String × String)) (q : String) (b : BodyKind) :
    dispatch cfg e host pyver now ⟨m, p, hs, q, b⟩ = notFound cfg ∨
    dispatch cfg e host pyver now ⟨m, p, hs, q, b⟩ = default405 ∨
    (∃ j, dispatch cfg e host pyver now ⟨m, p, hs, q, b⟩ = jsonOk j) ∨
    dispatch cfg e host pyver now ⟨m, p, hs, q, b⟩ = internalError cfg := by
  by_cases h1 : p = "/"
  · subst h1
    have hd : dispatch cfg e host pyver now ⟨m, "/", hs, q, b⟩ =
        if m ∈ (["GET"] : List String) then home cfg now ⟨m, "/", hs, q, b⟩
        else default405 := rfl
    rw [hd]
    by_cases hm : m ∈ (["GET"] : List String)
    · rw [if_pos hm]
      exact .inr (.inr (.inl ⟨_, rfl⟩))
    · rw [if_neg hm]
      exact .inr (.inl rfl)
  by_cases h2 : p = "/health"
  · subst h2
    have hd : dispatch cfg e host pyver now ⟨m, "/health", hs, q, b⟩ =
        if m ∈ (["GET"] : List String) then health cfg host now ⟨m, "/health", hs, q, b⟩
        else default405 := rfl
    rw [hd]
    by_cases hm : m ∈ (["GET"] : List String)
    · rw [if_pos hm]
      exact .inr (.inr (.inl ⟨_, rfl⟩))
    · rw [if_neg hm]
      exact .inr (.inl rfl)
  by_cases h3 : p = "/api/echo"
  · subst h3
    have hd : dispatch cfg e host pyver now ⟨m, "/api/echo", hs, q, b⟩ =
        if m ∈ (["POST"] : List String) then
          (match echo cfg now ⟨m, "/api/echo", hs, q, b⟩ with
           | .ok r => r
           | .error _ => internalError cfg)
        else default405 := rfl
    rw [hd]
    by_cases hm : m ∈ (["POST"] : List String)
    · rw [if_pos hm]
      cases b with
      | absent => exact .inr (.inr (.inl ⟨_, rfl⟩))
      | valid v => exact .inr (.inr (.inl ⟨_, rfl⟩))
      | malformed => exact .inr (.inr (.inr rfl))
    · rw [if_neg hm]
      exact .inr (.inl rfl)
  by_cases h4 : p = "/api/info"
  · subst h4
    have hd : dispatch cfg e host pyver now ⟨m, "/api/info", hs, q, b⟩ =
        if m ∈ (["GET"] : List String) then info cfg e host pyver now ⟨m, "/api/info", hs, q, b⟩
        else default405 := rfl
    rw [hd]
    by_cases hm : m ∈ (["GET"] : List String)
    · rw [if_pos hm]
      exact .inr (.inr (.inl ⟨_, rfl⟩))
    · rw [if_neg hm]
      exact .inr (.inl rfl)
  · have hr : routeMethods p = none := by
      simp [routeMethods, h1, h2, h3, h4]
    have hd : dispatch cfg e host pyver now ⟨m, p, hs, q, b⟩ = notFound cfg := by
      unfold dispatch
      rw [show (HttpRequest.mk m p hs q b).path = p from rfl, hr]
    exact .inl hd

/-- Claim C1: for every valid JSON value v posted to /api/echo with an
application/json body, the response has status 200 and content type
application/json, its `received` field deep-equals v exactly, and `version`
and `timestamp` fields are present. -/
theorem echo_roundtrip_identity (cfg : ServiceConfig) (e : Env) (host pyver : String)
    (now : DateTime) (hs : List (String × String)) (q : String) (v : Json) :
    (dispatch cfg e host pyver now ⟨"POST", "/api/echo", hs, q, .valid v⟩).status = 200 ∧
    (dispatch cfg e host pyver now ⟨"POST", "/api/echo", hs, q, .valid v⟩).contentType =
      "application/json" ∧
    respField (dispatch cfg e host pyver now ⟨"POST", "/api/echo", hs, q, .valid v⟩)
      "received" = some v ∧
    (respField (dispatch cfg e host pyver now ⟨"POST", "/api/echo", hs, q, .valid v⟩)
      "version").isSome = true ∧
    (respField (dispatch cfg e host pyver now ⟨"POST", "/api/echo", hs, q, .valid v⟩)
      "timestamp").isSome = true :=
  ⟨rfl, rfl, rfl, rfl, rfl⟩

/-- Claim C2 is false as stated: a GET to the defined route /api/echo (POST
only) receives the framework's default 405 response, whose body is an HTML
page and whose content type is not application/json. -/
theorem json_everywhere_counterexample :
    (dispatch cfg0 [] "host0" "3.12.0" t1c ⟨"GET", "/api/echo", [], "", .absent⟩).contentType =
      "text/html; charset=utf-8" ∧
    ¬ (dispatch cfg0 [] "host0" "3.12.0" t1c
        ⟨"GET", "/api/echo", [], "", .absent⟩).contentType = "application/json" ∧
    (dispatch cfg0 [] "host0" "3.12.0" t1c ⟨"GET", "/api/echo", [], "", .absent⟩).body =
      RespBody.html "405 Method Not Allowed" :=
  ⟨rfl, by decide, rfl⟩

/-- Claim C2 (amended): every response is a JSON body with a
Content-Type: application/json header, except a request whose path matches a
route but whose method is not allowed there, which gets the framework's
default 405 HTML response. -/
theorem json_bodies_except_405 (cfg : ServiceConfig) (e : Env) (host pyver : String)
    (now : DateTime) (req : HttpRequest) :
    ((dispatch cfg e host pyver now req).contentType = "application/json" ∧
      ∃ j, (dispatch cfg e host pyver now req).body = RespBody.json j) ∨
    ((dispatch cfg e host pyver now req).status = 405 ∧
      dispatch cfg e host pyver now req = default405) := by
  obtain ⟨m, p, hs, q, b⟩ := req
  rcases dispatch_cases cfg e host pyver now m p hs q b with h | h | ⟨j, h⟩ | h <;> rw [h]
  · exact .inl ⟨rfl, _, rfl⟩
  · exact .inr ⟨rfl, rfl⟩
  · exact .inl ⟨rfl, _, rfl⟩
  · exact .inl ⟨rfl, _, rfl⟩

/-- Claim C3: a malformed echo body makes the parse exception escape the echo
handler and surface as the registered 500 response (error "Internal Server
Error", message and version present), while an absent body parses to None and
is passed through as received: null with status 200. -/
theorem echo_malformed_500_absent_null (cfg : ServiceConfig) (e : Env) (host pyver : String)
    (now : DateTime) (hs : List (String × String)) (q : String) :
    dispatch cfg e host pyver now ⟨"POST", "/api/echo", hs, q, .malformed⟩ =
      internalError cfg ∧
    (internalError cfg).status = 500 ∧
    respField (internalError cfg) "error" = some (Json.str "Internal Server Error") ∧
    (respField (internalError cfg) "message").isSome = true ∧
    respField (internalError cfg) "version" = some (Json.str cfg.version) ∧
    (dispatch cfg e host pyver now ⟨"POST", "/api/echo", hs, q, .absent⟩).status = 200 ∧
    respField (dispatch cfg e host pyver now ⟨"POST", "/api/echo", hs, q, .absent⟩)
      "received" = some Json.null :=
  ⟨rfl, rfl, rfl, rfl, rfl, rfl, rfl⟩

/-- Claim C4 is false as stated: the info response's system object has no
runtime_version field; its fields are hostname and python_version. -/
theorem info_runtime_version_counterexample :
    subField (dispatch cfg0 [] "host0" "3.12.0" t1c ⟨"GET", "/api/info", [], "", .absent⟩)
      "system" "runtime_version" = none ∧
    subKeys (dispatch cfg0 [] "host0" "3.12.0" t1c ⟨"GET", "/api/info", [], "", .absent⟩)
      "system" = ["hostname", "python_version"] :=
  ⟨rfl, rfl⟩

/-- Claim C4 (amended): every GET /api/info response has status 200 and
exactly the fields application {name, version, build_sha, environment},
system {hostname, python_version}, and a top-level timestamp. -/
theorem info_field_names (cfg : ServiceConfig) (e : Env) (host pyver : String)
    (now : DateTime) (hs : List (String × String)) (q : String) (b : BodyKind) :
    (dispatch cfg e host pyver now ⟨"GET", "/api/info", hs, q, b⟩).status = 200 ∧
    respKeys (dispatch cfg e host pyver now ⟨"GET", "/api/info", hs, q, b⟩) =
      ["application", "system", "timestamp"] ∧
    subKeys (dispatch cfg e host pyver now ⟨"GET", "/api/info", hs, q, b⟩) "application" =
      ["name", "version", "build_sha", "environment"] ∧
    subKeys (dispatch cfg e host pyver now ⟨"GET", "/api/info", hs, q, b⟩) "system" =
      ["hostname", "python_version"] :=
  ⟨rfl, rfl, rfl, rfl⟩

/-- Claim C5 is false as stated: ENVIRONMENT is read inside the info handler
at request time, so with ENVIRONMENT=production at startup and
ENVIRONMENT=staging at request time, application.environment reports
"staging", not the startup value "production". -/
theorem environment_read_per_request_counterexample :
    subField (dispatch (mkServiceConfig [("ENVIRONMENT", "production")])
        [("ENVIRONMENT", "staging")] "host0" "3.12.0" t1c
        ⟨"GET", "/api/info", [], "", .absent⟩)
      "application" "environment" = some (Json.str "staging") ∧
    getenv [("ENVIRONMENT", "production")] "ENVIRONMENT" "development" = "production" ∧
    ("staging" : String) ≠ "production" :=
  ⟨rfl, rfl, by decide⟩

/-- Claim C5 (amended): APP_VERSION and BUILD_SHA are captured from the
environment once at process start and reported unchanged by /api/info, but
ENVIRONMENT is read from the process environment on each /api/info request,
so application.environment reflects the request-time value (default
"development"). -/
theorem config_read_lifecycle (eStart eReq : Env) (host pyver : String) (now : DateTime)
    (hs : List (String × String)) (q : String) (b : BodyKind) :
    subField (dispatch (mkServiceConfig eStart) eReq host pyver now
        ⟨"GET", "/api/info", hs, q, b⟩) "application" "environment" =
      some (Json.str (getenv eReq "ENVIRONMENT" "development")) ∧
    subField (dispatch (mkServiceConfig eStart) eReq host pyver now
        ⟨"GET", "/api/info", hs, q, b⟩) "application" "version" =
      some (Json.str (getenv eStart "APP_VERSION" "1.0.0")) ∧
    subField (dispatch (mkServiceConfig eStart) eReq host pyver now
        ⟨"GET", "/api/info", hs, q, b⟩) "application" "build_sha" =
      some (Json.str (getenv eStart "BUILD_SHA" "dev")) :=
  ⟨rfl, rfl, rfl⟩

/-- Claim C6: when APP_VERSION is set before process start, every endpoint's
version field (including the 404 and 500 error bodies) reports its value;
when it is unset, every version field is "1.0.0". -/
theorem app_version_propagates (e : Env) (host pyver : String) (now : DateTime)
    (hs : List (String × String)) (q : String) (v : Json) (s : String) :
    (e.lookup "APP_VERSION" = some s →
      versionsOf e host pyver now hs q v = List.replicate 6 (some (Json.str s))) ∧
    (e.lookup "APP_VERSION" = none →
      versionsOf e host pyver now hs q v = List.replicate 6 (some (Json.str "1.0.0"))) := by
  have base : versionsOf e host pyver now hs q v =
      List.replicate 6 (some (Json.str (getenv e "APP_VERSION" "1.0.0"))) := rfl
  constructor
  · intro h
    rw [base]
    simp [getenv, h]
  · intro h
    rw [base]
    simp [getenv, h]

/-- Witness for C6 at APP_VERSION=2.3.1 and at an empty environment. -/
theorem app_version_propagates_witness :
    (([("APP_VERSION", "2.3.1")] : Env).lookup "APP_VERSION" = some "2.3.1") ∧
    versionsOf [("APP_VERSION", "2.3.1")] "host0" "3.12.0" t1c [] "" Json.null =
      List.replicate 6 (some (Json.str "2.3.1")) ∧
    (([] : Env).lookup "APP_VERSION" = none) ∧
    versionsOf [] "host0" "3.12.0" t1c [] "" Json.null =
      List.replicate 6 (some (Json.str "1.0.0")) :=
  ⟨rfl,
   (app_version_propagates [("APP_VERSION", "2.3.1")] "host0" "3.12.0" t1c [] "" Json.null
      "2.3.1").1 rfl,
   rfl,
   (app_version_propagates [] "host0" "3.12.0" t1c [] "" Json.null "1.0.0").2 rfl⟩

/-- Claim C7: every request whose path matches no route, whatever its method,
gets the registered 404 handler's response: status 404, error "Not Found",
with message and version fields. -/
theorem unmatched_path_404 (cfg : ServiceConfig) (e : Env) (host pyver : String)
    (now : DateTime) (req : HttpRequest) (h : routeMethods req.path = none) :
    dispatch cfg e host pyver now req = notFound cfg ∧
    (notFound cfg).status = 404 ∧
    respField (notFound cfg) "error" = some (Json.str "Not Found") ∧
    (respField (notFound cfg) "message").isSome = true ∧
    respField (notFound cfg) "version" = some (Json.str cfg.version) := by
  refine ⟨?_, rfl, rfl, rfl, rfl⟩
  unfold dispatch
  rw [h]

/-- Witness for C7 at a DELETE of /nonexistent. -/
theorem unmatched_path_404_witness :
    routeMethods "/nonexistent" = none ∧
    dispatch cfg0 [] "host0" "3.12.0" t1c ⟨"DELETE", "/nonexistent", [], "", .absent⟩ =
      notFound cfg0 :=
  ⟨rfl, (unmatched_path_404 cfg0 [] "host0" "3.12.0" t1c
    ⟨"DELETE", "/nonexistent", [], "", .absent⟩ rfl).1⟩

/-- Claim C8: each successful endpoint's timestamp field is the ISO-8601
rendering of the request-time clock (fresh per request, not cached), that
rendering matches the YYYY-MM-DDTHH:MM:SS[.ffffff] shape with no timezone
offset, and for a non-decreasing clock the rendered timestamps are
non-decreasing in lexicographic string order. -/
theorem timestamps_fresh_and_monotone (cfg : ServiceConfig) (e : Env) (host pyver : String)
    (now : DateTime) (hs : List (String × String)) (q : String) (v : Json)
    (hnow : validDT now) :
    respField (dispatch cfg e host pyver now ⟨"GET", "/", hs, q, .absent⟩) "timestamp" =
      some (Json.str (isoformat now)) ∧
    respField (dispatch cfg e host pyver now ⟨"GET", "/health", hs, q, .absent⟩) "timestamp" =
      some (Json.str (isoformat now)) ∧
    respField (dispatch cfg e host pyver now ⟨"POST", "/api/echo", hs, q, .valid v⟩)
      "timestamp" = some (Json.str (isoformat now)) ∧
    respField (dispatch cfg e host pyver now ⟨"GET", "/api/info", hs, q, .absent⟩)
      "timestamp" = some (Json.str (isoformat now)) ∧
    isoShapeB (isoformat now).data = true ∧
    (∀ later : DateTime, validDT later → dtKey now ≤ dtKey later →
      strLe (isoformat now) (isoformat later)) :=
  ⟨rfl, rfl, rfl, rfl, isoformat_shape now, fun _ hl hle => isoformat_mono hnow hl hle⟩

/-- Witness for C8 across the 2023 to 2024 second boundary. -/
theorem timestamps_fresh_and_monotone_witness :
    validDT t0c ∧ validDT t1c ∧ dtKey t0c ≤ dtKey t1c ∧
    strLe (isoformat t0c) (isoformat t1c) ∧
    respField (dispatch cfg0 [] "host0" "3.12.0" t0c ⟨"GET", "/", [], "", .absent⟩)
      "timestamp" = some (Json.str (isoformat t0c)) :=
  ⟨by decide, by decide, by decide,
   (timestamps_fresh_and_monotone cfg0 [] "host0" "3.12.0" t0c [] "" Json.null
      (by decide)).2.2.2.2.2 t1c (by decide) (by decide),
   (timestamps_fresh_and_monotone cfg0 [] "host0" "3.12.0" t0c [] "" Json.null
      (by decide)).1⟩

/-- Claim C9: a request to the defined route /api/echo with any method other
than POST is rejected by the routing layer with the framework default 405
response, which is not the structured JSON 404 body. -/
theorem echo_wrong_method_405 (cfg : ServiceConfig) (e : Env) (host pyver : String)
    (now : DateTime) (m : String) (hs : List (String × String)) (q : String)
    (b : BodyKind) (hm : m ≠ "POST") :
    dispatch cfg e host pyver now ⟨m, "/api/echo", hs, q, b⟩ = default405 ∧
    default405.status = 405 ∧
    default405.contentType = "text/html; charset=utf-8" ∧
    (∀ j, default405.body ≠ RespBody.json j) ∧
    default405 ≠ notFound cfg := by
  have hnotmem : m ∉ (["POST"] : List String) := by simp [hm]
  have hd : dispatch cfg e host pyver now ⟨m, "/api/echo", hs, q, b⟩ =
      if m ∈ (["POST"] : List String) then
        (match echo cfg now ⟨m, "/api/echo", hs, q, b⟩ with
         | .ok r => r
         | .error _ => internalError cfg)
      else default405 := rfl
  refine ⟨?_, rfl, rfl, fun j h => ?_, fun h => ?_⟩
  · rw [hd, if_neg hnotmem]
  · exact RespBody.noConfusion h
  · exact absurd (congrArg HttpResponse.status h) (show ¬ (405 = 404) by decide)

/-- Witness for C9 at a GET of /api/echo. -/
theorem echo_wrong_method_405_witness :
    ("GET" : String) ≠ "POST" ∧
    dispatch cfg0 [] "host0" "3.12.0" t1c ⟨"GET", "/api/echo", [], "", .absent⟩ =
      default405 :=
  ⟨by decide, (echo_wrong_method_405 cfg0 [] "host0" "3.12.0" t1c "GET" [] "" .absent
    (by decide)).1⟩

/-- Claim C10: the handlers for /, /health, and /api/info ignore the request
content: with configuration, hostname, and clock fixed, two requests to the
same such endpoint with the same method but different headers, query strings,
and bodies get identical responses. -/
theorem fixed_endpoints_ignore_request (cfg : ServiceConfig) (e : Env) (host pyver : String)
    (now : DateTime) (m p : String) (hs1 : List (String × String)) (q1 : String)
    (b1 : BodyKind) (hs2 : List (String × String)) (q2 : String) (b2 : BodyKind)
    (hp : p = "/" ∨ p = "/health" ∨ p = "/api/info") :
    dispatch cfg e host pyver now ⟨m, p, hs1, q1, b1⟩ =
      dispatch cfg e host pyver now ⟨m, p, hs2, q2, b2⟩ := by
  rcases hp with h | h | h <;> subst h <;> rfl

/-- Witness for C10: two GET / requests differing in headers, query, and body
get the same response. -/
theorem fixed_endpoints_ignore_request_witness :
    ("/" = "/" ∨ "/" = "/health" ∨ "/" = "/api/info") ∧
    dispatch cfg0 [] "host0" "3.12.0" t1c ⟨"GET", "/", [("X-A", "1")], "a=b", .malformed⟩ =
      dispatch cfg0 [] "host0" "3.12.0" t1c ⟨"GET", "/", [], "", .absent⟩ :=
  ⟨Or.inl rfl, fixed_endpoints_ignore_request cfg0 [] "host0" "3.12.0" t1c "GET" "/"
    [("X-A", "1")] "a=b" .malformed [] "" .absent (Or.inl rfl)⟩
